import Mathlib

/-!
Shallow embedding of the WOLFSM game engine (React/TypeScript sources:
`components/GameEngine.tsx` with the SNAKE variant, plus the earlier
GameEngine variant whose hostile AI carries the sanctuary-flee branch).
JavaScript numbers are modelled as rationals; the primitive routines of
the `Math` object (`sin`, `cos`, `sqrt`, `atan2`, the constant `PI`) are
parameters of the embedding (`MathOps`), since they are transcendental
and the engine's control flow only ever consumes their outputs.
Ambient randomness (`Math.random()`) is passed in explicitly where the
source consumes it.
-/

namespace WolfSim

/-- 2-D vector of world coordinates (`Vec2` in `types.ts`). -/
structure Vec2 where
  x : ℚ
  y : ℚ
deriving DecidableEq

/-- The primitive math routines the engine calls: `Math.sin`, `Math.cos`,
`Math.sqrt`, `Math.atan2` and the constant `Math.PI`.  Theorems add
hypotheses relating them to genuine trigonometry where a claim needs it;
concrete instantiations below agree with the true functions on every
argument at which the evaluated run actually calls them. -/
structure MathOps where
  sin : ℚ → ℚ
  cos : ℚ → ℚ
  sqrt : ℚ → ℚ
  atan2 : ℚ → ℚ → ℚ
  pi : ℚ

/-- `seededRandom` from GameEngine.tsx:
`const x = Math.sin(seed++) * 10000; return x - Math.floor(x);`
(the post-increment acts on the local parameter copy and has no
observable effect). -/
def seededRandom (ops : MathOps) (seed : ℚ) : ℚ :=
  let x := ops.sin seed * 10000
  x - (⌊x⌋ : ℚ)

/-- `dist` utility: `Math.sqrt((a.x-b.x)**2 + (a.y-b.y)**2)`. -/
def dist (ops : MathOps) (a b : Vec2) : ℚ :=
  ops.sqrt ((a.x - b.x) ^ 2 + (a.y - b.y) ^ 2)

/-- `lerp(start, end, t) = start * (1 - t) + end * t`. -/
def lerp (start stop t : ℚ) : ℚ := start * (1 - t) + stop * t

/-- Exact squared Euclidean distance (used in theorem statements to talk
about geometry without going through the abstract `sqrt`). -/
def sqDist (a b : Vec2) : ℚ := (a.x - b.x) ^ 2 + (a.y - b.y) ^ 2

def CANVAS_WIDTH : ℚ := 2500
def CANVAS_HEIGHT : ℚ := 2500
def SPAWN_ZONE_CENTER : Vec2 := ⟨1250, 1250⟩
def SPAWN_ZONE_RADIUS : ℚ := 300

/-- Entity kind tag from `types.ts` (`ENEMY` is the tag used by the
earlier GameEngine variant in place of `SNAKE`). -/
inductive EntityType where
  | PLAYER | FRIEND | SNAKE | ENEMY | TREE | ROCK | STREAM
deriving DecidableEq

/-- `Entity` from `types.ts`.  `level`, `xp`, `maxXp` are optional fields
(only avatar kinds carry them); JavaScript `undefined` is `none`. -/
structure Entity where
  id : String
  pos : Vec2
  velocity : Vec2
  rotation : ℚ
  radius : ℚ
  type : EntityType
  hp : ℚ
  maxHp : ℚ
  isAttacking : Bool
  attackCooldown : ℚ
  walkCycle : ℚ
  color : String
  level : Option ℚ
  xp : Option ℚ
  maxXp : Option ℚ
deriving DecidableEq

/-- `GameState` from `types.ts` (the SNAKE variant, whose static entities
live in `environment`). -/
structure GameState where
  player : Entity
  friend : Option Entity
  enemies : List Entity
  environment : List Entity
  score : ℚ
  gameOver : Bool
  camera : Vec2
deriving DecidableEq

/-- JavaScript `a || d` on an optional number: `undefined` and `0` are
falsy and give the default. -/
def falsyOr (a : Option ℚ) (d : ℚ) : ℚ :=
  match a with
  | none => d
  | some v => if v = 0 then d else v

/-! ### World generation (`initWorld` in GameEngine.tsx) -/

/-- One healing-stream circle:
`x = (i/30)*CANVAS_WIDTH; y = CANVAS_HEIGHT/2 + Math.sin(i*0.5 + currentSeed)*400`
(the stream loop never advances `currentSeed`, so it still equals `seed`). -/
def streamEntity (ops : MathOps) (seed : ℚ) (i : ℕ) : Entity :=
  { id := "stream-" ++ toString i
    pos := ⟨((i : ℚ) / 30) * CANVAS_WIDTH, CANVAS_HEIGHT / 2 + ops.sin ((i : ℚ) * 0.5 + seed) * 400⟩
    velocity := ⟨0, 0⟩, rotation := 0, radius := 60
    type := EntityType.STREAM, hp := 0, maxHp := 0, isAttacking := false
    attackCooldown := 0, walkCycle := 0, color := "#3b82f6"
    level := none, xp := none, maxXp := none }

/-- One placed obstacle.  `c` is the value of `currentSeed` after the two
position draws; the source reads the extra draws at fixed offsets of `c`
without advancing it:
`isRock = seededRandom(currentSeed + 10) > 0.8`,
`rotation = seededRandom(currentSeed + 5) * Math.PI * 2`,
`radius = isRock ? 25 + seededRandom(currentSeed)*20 : 40 + seededRandom(currentSeed+1)*50`. -/
def mkObstacle (ops : MathOps) (i : ℕ) (c : ℚ) (pos : Vec2) : Entity :=
  if 0.8 < seededRandom ops (c + 10) then
    { id := "env-" ++ toString i, pos := pos, velocity := ⟨0, 0⟩
      rotation := seededRandom ops (c + 5) * ops.pi * 2
      radius := 25 + seededRandom ops c * 20
      type := EntityType.ROCK, hp := 100, maxHp := 100, isAttacking := false
      attackCooldown := 0, walkCycle := 0, color := "#57534e"
      level := none, xp := none, maxXp := none }
  else
    { id := "env-" ++ toString i, pos := pos, velocity := ⟨0, 0⟩
      rotation := seededRandom ops (c + 5) * ops.pi * 2
      radius := 40 + seededRandom ops (c + 1) * 50
      type := EntityType.TREE, hp := 100, maxHp := 100, isAttacking := false
      attackCooldown := 0, walkCycle := 0, color := "#14532d"
      level := none, xp := none, maxXp := none }

/-- The obstacle loop of `initWorld`.  `n` is the number of iterations
left, `i` the running index (for the id), `c` the current value of
`currentSeed`.  Each iteration performs `currentSeed += 1; r1 = ...;
currentSeed += 1; r2 = ...` — so the cursor advances by exactly two per
entity — and places the entity only if its position lies strictly more
than `SPAWN_ZONE_RADIUS + 50` away from the sanctuary center.  Returns
the placed entities together with the final cursor. -/
def obstacleLoop (ops : MathOps) : ℕ → ℕ → ℚ → List Entity × ℚ
  | 0, _, c => ([], c)
  | n + 1, i, c =>
    let r1 := seededRandom ops (c + 1)
    let r2 := seededRandom ops (c + 2)
    let pos : Vec2 := ⟨r1 * CANVAS_WIDTH, r2 * CANVAS_HEIGHT⟩
    let rest := obstacleLoop ops n (i + 1) (c + 2)
    if dist ops pos SPAWN_ZONE_CENTER > SPAWN_ZONE_RADIUS + 50 then
      (mkObstacle ops i (c + 2) pos :: rest.1, rest.2)
    else rest

/-- `initWorld(seed)`: 30 stream circles followed by up to 250 obstacles. -/
def initWorld (ops : MathOps) (seed : ℚ) : List Entity :=
  (List.range 30).map (streamEntity ops seed) ++ (obstacleLoop ops 250 0 seed).1

/-- The Tree/Rock entities of an environment list. -/
def obstaclesOf (env : List Entity) : List Entity :=
  env.filter (fun e => decide (e.type = EntityType.TREE ∨ e.type = EntityType.ROCK))

/-- The Rock entities of an environment list (obstacle collision only
tests `type === 'ROCK'` in the SNAKE variant). -/
def rocksOf (env : List Entity) : List Entity :=
  env.filter (fun e => decide (e.type = EntityType.ROCK))

/-! ### Enemy spawning (`spawnSnakes`) -/

/-- A freshly spawned snake (`spawnSnakes` body).  The source id embeds
`Date.now()`; the ambient clock is modelled by the index alone. -/
def snakeProto (pos : Vec2) (i : ℕ) : Entity :=
  { id := "snake-" ++ toString i, pos := pos, velocity := ⟨0, 0⟩
    rotation := 0, radius := 20, type := EntityType.SNAKE
    hp := 60, maxHp := 60, isAttacking := false
    attackCooldown := 0, walkCycle := 0, color := "#4d7c0f"
    level := none, xp := none, maxXp := none }

/-- The rejection loop of `spawnSnakes`: draw candidate positions from the
ambient `Math.random()` stream (modelled as a list) until one is at least
600 from the player and outside the sanctuary.  If the modelled stream is
exhausted the last position stands (the source stream is unbounded). -/
def pickSnakePos (ops : MathOps) (playerPos : Vec2) : List Vec2 → Vec2 × List Vec2
  | [] => (SPAWN_ZONE_CENTER, [])
  | c :: rest =>
    if dist ops c playerPos < 600 ∨ dist ops c SPAWN_ZONE_CENTER < SPAWN_ZONE_RADIUS then
      pickSnakePos ops playerPos rest
    else (c, rest)

/-- `spawnSnakes(count)` over the modelled `Math.random()` stream. -/
def spawnLoop (ops : MathOps) (playerPos : Vec2) : ℕ → List Vec2 → List Entity
  | 0, _ => []
  | n + 1, rng =>
    let r := pickSnakePos ops playerPos rng
    snakeProto r.1 n :: spawnLoop ops playerPos n r.2

/-- The Player entity as initialised in GameEngine.tsx. -/
def playerInit : Entity :=
  { id := "p1", pos := SPAWN_ZONE_CENTER, velocity := ⟨0, 0⟩
    rotation := 0, radius := 25, type := EntityType.PLAYER
    hp := 100, maxHp := 100, isAttacking := false
    attackCooldown := 0, walkCycle := 0, color := "#cbd5e1"
    level := some 1, xp := some 0, maxXp := some 100 }

/-- The Friend (remote avatar) entity as initialised when multiplayer. -/
def friendInit : Entity :=
  { id := "p2", pos := ⟨SPAWN_ZONE_CENTER.x + 60, SPAWN_ZONE_CENTER.y⟩, velocity := ⟨0, 0⟩
    rotation := 0, radius := 25, type := EntityType.FRIEND
    hp := 100, maxHp := 100, isAttacking := false
    attackCooldown := 0, walkCycle := 0, color := "#cbd5e1"
    level := some 1, xp := none, maxXp := none }

/-- Session initialisation: the environment comes from `initWorld(seed)`
alone; snakes are spawned (from the ambient random stream) only on the
host or in single-player; the friend exists only in multiplayer. -/
def initGameState (ops : MathOps) (isMultiplayer isHost : Bool) (seed : ℚ)
    (rng : List Vec2) : GameState :=
  { player := playerInit
    friend := if isMultiplayer then some friendInit else none
    enemies := if !isMultiplayer || isHost then spawnLoop ops playerInit.pos 5 rng else []
    environment := initWorld ops seed
    score := 0
    gameOver := false
    camera := SPAWN_ZONE_CENTER }

/-! ### Melee combat (`handleAttack`, `gainXp`) -/

/-- The two `while` loops
`while (angleDiff > Math.PI) angleDiff -= Math.PI * 2;`
`while (angleDiff < -Math.PI) angleDiff += Math.PI * 2;`.
Both operands of the subtraction that produces `angleDiff` are
`Math.atan2` results (range `(-pi, pi]`), so the raw difference lies in
`(-2*pi, 2*pi)` and each loop runs at most once; the embedding is that
single conditional step. -/
def normalizeAngle (pi x : ℚ) : ℚ :=
  let x1 := if pi < x then x - 2 * pi else x
  if x1 < -pi then x1 + 2 * pi else x1

/-- `const damage = (p.level || 1) >= 2 ? 60 : 12;`. -/
def attackDamage (level : Option ℚ) : ℚ :=
  if 2 ≤ falsyOr level 1 then 60 else 12

/-- `gainXp(amount)`: no-op at level cap 2; otherwise add xp and on
reaching `maxXp` set level 2, cap xp at `maxXp` and heal to full. -/
def gainXp (p : Entity) (amount : ℚ) : Entity :=
  if 2 ≤ falsyOr p.level 1 then p
  else
    let newXp := falsyOr p.xp 0 + amount
    if falsyOr p.maxXp 100 ≤ newXp then
      { p with level := some 2, xp := p.maxXp, hp := p.maxHp }
    else { p with xp := some newXp }

/-- The per-enemy body of `handleAttack` (SNAKE variant: range 150,
angular half-width 1.5): returns the possibly damaged/knocked-back enemy
and whether this hit was a kill transition
(`enemy.hp <= 0 && enemy.hp + damage > 0`, checked after the damage). -/
def hitEnemyK (ops : MathOps) (p : Entity) (dmg : ℚ) (e : Entity) : Entity × Bool :=
  let dx := e.pos.x - p.pos.x
  let dy := e.pos.y - p.pos.y
  let d := ops.sqrt (dx * dx + dy * dy)
  if d < 150 then
    let a := ops.atan2 dy dx
    let diff := normalizeAngle ops.pi (a - p.rotation)
    if |diff| < 1.5 then
      let e1 := { e with hp := e.hp - dmg
                         pos := ⟨e.pos.x + ops.cos a * 40, e.pos.y + ops.sin a * 40⟩ }
      (e1, decide (e1.hp ≤ 0 ∧ 0 < e1.hp + dmg))
    else (e, false)
  else (e, false)

/-- The enemy as left by a single `handleAttack` pass over it. -/
def hitEnemy (ops : MathOps) (p : Entity) (dmg : ℚ) (e : Entity) : Entity :=
  (hitEnemyK ops p dmg e).1

/-- The enemy qualifies for damage: strictly inside the attack range and
strictly inside the angular half-width after normalization. -/
def inCone (ops : MathOps) (p e : Entity) : Prop :=
  ops.sqrt ((e.pos.x - p.pos.x) * (e.pos.x - p.pos.x) +
            (e.pos.y - p.pos.y) * (e.pos.y - p.pos.y)) < 150 ∧
  |normalizeAngle ops.pi (ops.atan2 (e.pos.y - p.pos.y) (e.pos.x - p.pos.x) - p.rotation)| < 1.5

instance (ops : MathOps) (p e : Entity) : Decidable (inCone ops p e) := by
  unfold inCone; infer_instance

/-- The `forEach` of `handleAttack`: each enemy is hit in order and each
kill transition feeds `gainXp(10)` into the player. -/
def attackFold (ops : MathOps) (dmg : ℚ) : List Entity → Entity → List Entity × Entity
  | [], p => ([], p)
  | e :: rest, p =>
    let r := hitEnemyK ops p dmg e
    let p1 := if r.2 then gainXp p 10 else p
    let out := attackFold ops dmg rest p1
    (r.1 :: out.1, out.2)

/-- `handleAttack()`: guarded by `gameOver` and the cooldown; sets the
attacking flag, resets the cooldown to 25, and sweeps the enemy list. -/
def handleAttack (ops : MathOps) (s : GameState) : GameState :=
  if s.gameOver then s
  else if s.player.attackCooldown ≤ 0 then
    let dmg := attackDamage s.player.level
    let p0 := { s.player with isAttacking := true, attackCooldown := 25 }
    let r := attackFold ops dmg s.enemies p0
    { s with player := r.2, enemies := r.1 }
  else s

/-! ### The physics tick (`updatePhysics`, SNAKE variant) -/

/-- The resolved movement input for one tick (keyboard/joystick vector). -/
structure InputState where
  dx : ℚ
  dy : ℚ

/-- Movement integration: normalize the non-zero input vector, step by
speed 7, advance the walk cycle and face the movement direction;
otherwise reset the walk cycle. -/
def moveStage (ops : MathOps) (inp : InputState) (s : GameState) : GameState :=
  if inp.dx ≠ 0 ∨ inp.dy ≠ 0 then
    let len := ops.sqrt (inp.dx * inp.dx + inp.dy * inp.dy)
    { s with player := { s.player with
        pos := ⟨s.player.pos.x + inp.dx / len * 7, s.player.pos.y + inp.dy / len * 7⟩
        walkCycle := s.player.walkCycle + 0.3
        rotation := ops.atan2 inp.dy inp.dx } }
  else { s with player := { s.player with walkCycle := 0 } }

/-- Cooldown decrement; the attacking flag clears when it reaches 0. -/
def cooldownStage (s : GameState) : GameState :=
  if 0 < s.player.attackCooldown then
    let c := s.player.attackCooldown - 1
    { s with player := { s.player with
        attackCooldown := c
        isAttacking := if c ≤ 0 then false else s.player.isAttacking } }
  else s

/-- Stream healing: if the player overlaps a stream circle, has missing
health, and the ambient `Math.random()` draw exceeds 0.9, heal one point
capped at `maxHp`. -/
def healStage (ops : MathOps) (healRand : ℚ) (s : GameState) : GameState :=
  let nearStream := (s.environment.filter (fun e => decide (e.type = EntityType.STREAM))).any
      (fun st => decide (dist ops s.player.pos st.pos < st.radius))
  if nearStream = true ∧ s.player.hp < s.player.maxHp ∧ 0.9 < healRand then
    { s with player := { s.player with hp := min s.player.maxHp (s.player.hp + 1) } }
  else s

/-- Target selection of the snake AI: the nearer of player and friend
(the player wins ties); the flag records whether the target is the
player's position (the bite uses JS reference equality
`target === s.player.pos`). -/
def targetChoice (ops : MathOps) (playerPos : Vec2) (friend : Option Entity)
    (snake : Entity) : Vec2 × ℚ × Bool :=
  let dp := dist ops snake.pos playerPos
  match friend with
  | none => (playerPos, dp, true)
  | some f =>
    let df := dist ops snake.pos f.pos
    if df < dp then (f.pos, df, false) else (playerPos, dp, true)

/-- One snake's AI step (SNAKE variant): chase within 800 at speed 3.5,
bite within 35 when off cooldown (damaging the player by 10 only when the
player is the target), then decrement the cooldown.  Returns the updated
snake and the damage dealt to the player.  There is no sanctuary check in
this variant. -/
def snakeTick (ops : MathOps) (playerPos : Vec2) (friend : Option Entity)
    (snake : Entity) : Entity × ℚ :=
  let tc := targetChoice ops playerPos friend snake
  let target := tc.1
  let closestDist := tc.2.1
  let targetIsPlayer := tc.2.2
  let r :=
    if closestDist < 800 then
      let a := ops.atan2 (target.y - snake.pos.y) (target.x - snake.pos.x)
      let s2 := { snake with
          rotation := a
          pos := ⟨snake.pos.x + ops.cos a * 3.5, snake.pos.y + ops.sin a * 3.5⟩
          walkCycle := snake.walkCycle + 0.4 }
      if closestDist < 35 ∧ snake.attackCooldown ≤ 0 then
        (({ s2 with attackCooldown := 60, isAttacking := true } : Entity),
         if targetIsPlayer then (10 : ℚ) else 0)
      else (s2, 0)
    else (snake, 0)
  (if 0 < r.1.attackCooldown then { r.1 with attackCooldown := r.1.attackCooldown - 1 } else r.1,
   r.2)

/-- Host-only enemy logic: run every snake's AI (bites accumulate on the
player), then keep only the snakes with positive health.  The source's
conditional `spawnSnakes(3)` pushes into the superseded array — the
subsequent `s.enemies = aliveEnemies` assignment discards the pushed
snakes — so the respawn has no effect on the resulting state. -/
def hostStage (ops : MathOps) (s : GameState) : GameState :=
  let results := s.enemies.map (snakeTick ops s.player.pos s.friend)
  let dmg := (results.map Prod.snd).sum
  let alive := (results.map Prod.fst).filter (fun e => decide (0 < e.hp))
  { s with player := { s.player with hp := s.player.hp - dmg }, enemies := alive }

/-- `if (!isMultiplayer || isHost)` around the enemy logic. -/
def hostUpdate (isMultiplayer isHost : Bool) (ops : MathOps) (s : GameState) : GameState :=
  if !isMultiplayer || isHost then hostStage ops s else s

/-- `Math.max(0, Math.min(CANVAS_WIDTH, v))`. -/
def clampCoord (v : ℚ) : ℚ := max 0 (min CANVAS_WIDTH v)

/-- Clamp a position into the world rectangle. -/
def clampPos (p : Vec2) : Vec2 := ⟨clampCoord p.x, clampCoord p.y⟩

/-- Push a dynamic entity out of one rock: when the center distance is
below the radius sum, move it outward along the rock-to-entity direction
by the penetration depth. -/
def pushFromRock (ops : MathOps) (rock ent : Entity) : Entity :=
  let d := dist ops ent.pos rock.pos
  let minD := ent.radius + rock.radius
  if d < minD then
    let a := ops.atan2 (ent.pos.y - rock.pos.y) (ent.pos.x - rock.pos.x)
    let push := minD - d
    { ent with pos := ⟨ent.pos.x + ops.cos a * push, ent.pos.y + ops.sin a * push⟩ }
  else ent

/-- Per-entity bound clamp followed by the rock push-outs, in source
order: the clamp runs first, the pushes after it. -/
def resolveEntity (ops : MathOps) (env : List Entity) (ent : Entity) : Entity :=
  (rocksOf env).foldl (fun e r => pushFromRock ops r e) { ent with pos := clampPos ent.pos }

/-- World-bound clamp and obstacle collision for every dynamic entity
(player, snakes, friend). -/
def boundsStage (ops : MathOps) (s : GameState) : GameState :=
  { s with player := resolveEntity ops s.environment s.player
           enemies := s.enemies.map (resolveEntity ops s.environment)
           friend := s.friend.map (resolveEntity ops s.environment) }

/-- Camera smoothing: `lerp(camera, player.pos, 0.1)` per coordinate. -/
def cameraStage (s : GameState) : GameState :=
  { s with camera := ⟨lerp s.camera.x s.player.pos.x 0.1, lerp s.camera.y s.player.pos.y 0.1⟩ }

/-- `updatePhysics(s)` of the SNAKE variant, with the ambient
`Math.random()` healing draw passed explicitly. -/
def updatePhysics (ops : MathOps) (isMultiplayer isHost : Bool) (inp : InputState)
    (healRand : ℚ) (s : GameState) : GameState :=
  cameraStage (boundsStage ops (hostUpdate isMultiplayer isHost ops
    (healStage ops healRand (cooldownStage (moveStage ops inp s)))))

/-- One scheduler step of `gameLoop`: when `gameOver` is set the loop
returns without simulating and without requesting another frame;
otherwise it runs `updatePhysics` and schedules the next frame.  The
second component records whether another frame was requested. -/
def gameLoopStep (ops : MathOps) (isMultiplayer isHost : Bool) (inp : InputState)
    (healRand : ℚ) (s : GameState) : GameState × Bool :=
  if s.gameOver then (s, false)
  else (updatePhysics ops isMultiplayer isHost inp healRand s, true)

/-! ### The hostile AI of the earlier GameEngine variant (with the
sanctuary-flee branch) -/

/-- One enemy's AI step in the earlier variant: flee radially away from
the sanctuary center at speed 2 when within `SPAWN_ZONE_RADIUS + 50` of
it; otherwise chase the player at speed 4 within aggro range 700 and bite
for 15 within 45 when off cooldown; otherwise idle.  Then decrement the
cooldown.  Returns the updated enemy and the damage dealt to the player. -/
def enemyStepV1 (ops : MathOps) (playerPos : Vec2) (e : Entity) : Entity × ℚ :=
  let distToPlayer := dist ops e.pos playerPos
  let distToSpawn := dist ops e.pos SPAWN_ZONE_CENTER
  let r :=
    if distToSpawn < SPAWN_ZONE_RADIUS + 50 then
      let a := ops.atan2 (e.pos.y - SPAWN_ZONE_CENTER.y) (e.pos.x - SPAWN_ZONE_CENTER.x)
      (({ e with pos := ⟨e.pos.x + ops.cos a * 2, e.pos.y + ops.sin a * 2⟩
                 rotation := a
                 walkCycle := e.walkCycle + 0.2 } : Entity), (0 : ℚ))
    else if distToPlayer < 700 then
      let a := ops.atan2 (playerPos.y - e.pos.y) (playerPos.x - e.pos.x)
      let e2 := { e with
          rotation := a
          pos := ⟨e.pos.x + ops.cos a * 4, e.pos.y + ops.sin a * 4⟩
          walkCycle := e.walkCycle + 0.25 }
      if distToPlayer < 45 ∧ e.attackCooldown ≤ 0 then
        (({ e2 with attackCooldown := 60, isAttacking := true } : Entity), (15 : ℚ))
      else (e2, 0)
    else (e, 0)
  (if 0 < r.1.attackCooldown then { r.1 with attackCooldown := r.1.attackCooldown - 1 } else r.1,
   r.2)

/-! ### Network message application (`conn.on('data')`) -/

/-- The `data` record of a `PLAYER_UPDATE` message. -/
structure AvatarMsg where
  pos : Vec2
  rotation : ℚ
  walkCycle : ℚ
  isAttacking : Bool
  hp : ℚ
  level : Option ℚ

/-- The two periodic message kinds of the sync protocol. -/
inductive NetMsg where
  | playerUpdate (d : AvatarMsg)
  | worldUpdate (enemies : List Entity)

/-- The `conn.on('data')` handler: a `PLAYER_UPDATE` overwrites the
friend mirror field-by-field; a `WORLD_UPDATE` wholesale-replaces the
enemy list, but only on a non-host peer. -/
def applyData (isHost : Bool) (s : GameState) (m : NetMsg) : GameState :=
  match m with
  | NetMsg.playerUpdate d =>
    match s.friend with
    | some f =>
      { s with friend := some { f with
          pos := d.pos, rotation := d.rotation, walkCycle := d.walkCycle
          isAttacking := d.isAttacking, hp := d.hp, level := d.level } }
    | none => s
  | NetMsg.worldUpdate es =>
    if isHost then s else { s with enemies := es }

/-! ### Invariant vocabulary -/

/-- The dynamic entities of a state, in the order the tick clamps them. -/
def dynEntities (s : GameState) : List Entity :=
  s.player :: (s.friend.toList ++ s.enemies)

/-- Every dynamic entity's health is at most its maximum. -/
def healthsOk (s : GameState) : Prop :=
  ∀ e ∈ dynEntities s, e.hp ≤ e.maxHp

/-- Position inside the world rectangle. -/
def inBounds (v : Vec2) : Prop :=
  0 ≤ v.x ∧ v.x ≤ CANVAS_WIDTH ∧ 0 ≤ v.y ∧ v.y ≤ CANVAS_HEIGHT

/-! ### Concrete instantiations used by counterexamples and witnesses.
Each `MathOps` below agrees with the genuine `Math` functions on every
argument the accompanying evaluation actually feeds it (the value 3
stands for the atan2 result pi on the negative x-axis, with cos 3 = -1,
sin 3 = 0). -/

def trivOps : MathOps :=
  { sin := fun _ => 0, cos := fun _ => 0, sqrt := fun _ => 0
    atan2 := fun _ _ => 0, pi := 3 }

def cexOps : MathOps :=
  { sin := fun _ => 0
    cos := fun t => if t = 3 then -1 else 1
    sqrt := fun q => if q = 400 then 20 else if q = 900 then 30 else if q = 10000 then 100 else 0
    atan2 := fun _ _ => 3
    pi := 3 }

def inp0 : InputState := ⟨0, 0⟩

/-- A player-shaped entity at a given position and health. -/
def mkPlayer (pos : Vec2) (hp : ℚ) : Entity :=
  { playerInit with pos := pos, hp := hp }

/-- State with the player at 5 hp and a snake 20 units away, off
cooldown: the bite this tick drives the health to -5. -/
def biteState : GameState :=
  { player := mkPlayer ⟨1250, 1250⟩ 5
    friend := none
    enemies := [snakeProto ⟨1270, 1250⟩ 0]
    environment := []
    score := 0, gameOver := false, camera := ⟨1250, 1250⟩ }

/-- A generated-shape rock near the left world edge. -/
def edgeRock : Entity :=
  { id := "env-0", pos := ⟨30, 1250⟩, velocity := ⟨0, 0⟩
    rotation := 0, radius := 25, type := EntityType.ROCK
    hp := 100, maxHp := 100, isAttacking := false
    attackCooldown := 0, walkCycle := 0, color := "#57534e"
    level := none, xp := none, maxXp := none }

/-- State with the player on the left world edge overlapping `edgeRock`:
the push-out (applied after the clamp) moves it to x = -20. -/
def rockState : GameState :=
  { player := mkPlayer ⟨0, 1250⟩ 100
    friend := none
    enemies := []
    environment := [edgeRock]
    score := 0, gameOver := false, camera := ⟨0, 1250⟩ }

/-- State whose player is already at 0 hp with the terminal flag still
false (the situation after ten snake bites). -/
def deadState : GameState :=
  { player := mkPlayer ⟨1250, 1250⟩ 0
    friend := none
    enemies := []
    environment := []
    score := 0, gameOver := false, camera := ⟨1250, 1250⟩ }

/-- A snake 100 units from the sanctuary center (well within the
sanctuary-proximity threshold 350). -/
def cexSnake : Entity := snakeProto ⟨1350, 1250⟩ 0

/-- Healthy small state for the invariant witnesses. -/
def wState : GameState :=
  { player := mkPlayer ⟨1250, 1250⟩ 100
    friend := none
    enemies := [snakeProto ⟨2000, 2000⟩ 1]
    environment := []
    score := 0, gameOver := false, camera := ⟨1250, 1250⟩ }

/-- Ops for the flee witness: the enemy sits due +x of the center, where
atan2 = 0, cos 0 = 1, sin 0 = 0. -/
def fleeOps : MathOps :=
  { sin := fun _ => 0, cos := fun _ => 1, sqrt := fun _ => 100
    atan2 := fun _ _ => 0, pi := 3 }

/-- Ops for the generator-draw witness: the rock-threshold draw (argument
12) yields 0.9, every position draw yields 0.5, and the sanctuary guard
distance evaluates to 400. -/
def drawOps : MathOps :=
  { sin := fun t => if t = 12 then 9 / 100000 else 1 / 20000
    cos := fun _ => 0
    sqrt := fun _ => 400
    atan2 := fun _ _ => 0, pi := 3 }

/-- The rock `drawOps` places in one generator iteration from cursor 0. -/
def wRock : Entity := mkObstacle drawOps 0 2 ⟨1250, 1250⟩

/-- Ops under which every attack distance evaluates to exactly 150 (the
range boundary). -/
def ops150 : MathOps :=
  { sin := fun _ => 0, cos := fun _ => 0, sqrt := fun _ => 150
    atan2 := fun _ _ => 0, pi := 3 }

/-- Ops under which every attack lands at angular difference exactly 1.5
(the cone boundary). -/
def opsCone : MathOps :=
  { sin := fun _ => 0, cos := fun _ => 0, sqrt := fun _ => 0
    atan2 := fun _ _ => 1.5, pi := 3 }

/-- Ops under which every distance evaluates to 900 (out of aggro range
and outside the sanctuary). -/
def farOps : MathOps :=
  { sin := fun _ => 0, cos := fun _ => 0, sqrt := fun _ => 900
    atan2 := fun _ _ => 0, pi := 3 }

/-- Ops under which every enemy trivially qualifies for the melee cone. -/
def opsHit : MathOps :=
  { sin := fun _ => 0, cos := fun _ => 0, sqrt := fun _ => 0
    atan2 := fun _ _ => 0, pi := 3 }

/-! ## Helper lemmas -/

theorem moveStage_gameOver (ops : MathOps) (inp : InputState) (s : GameState) :
    (moveStage ops inp s).gameOver = s.gameOver := by
  unfold moveStage; split <;> rfl

theorem cooldownStage_gameOver (s : GameState) :
    (cooldownStage s).gameOver = s.gameOver := by
  unfold cooldownStage; split <;> rfl

theorem healStage_gameOver (ops : MathOps) (r : ℚ) (s : GameState) :
    (healStage ops r s).gameOver = s.gameOver := by
  unfold healStage; dsimp only; split <;> rfl

theorem hostStage_gameOver (ops : MathOps) (s : GameState) :
    (hostStage ops s).gameOver = s.gameOver := rfl

theorem hostUpdate_gameOver (im ih : Bool) (ops : MathOps) (s : GameState) :
    (hostUpdate im ih ops s).gameOver = s.gameOver := by
  unfold hostUpdate; split
  · exact hostStage_gameOver ops s
  · rfl

theorem boundsStage_gameOver (ops : MathOps) (s : GameState) :
    (boundsStage ops s).gameOver = s.gameOver := rfl

theorem cameraStage_gameOver (s : GameState) :
    (cameraStage s).gameOver = s.gameOver := rfl

theorem updatePhysics_gameOver (ops : MathOps) (im ih : Bool) (inp : InputState)
    (r : ℚ) (s : GameState) :
    (updatePhysics ops im ih inp r s).gameOver = s.gameOver := by
  unfold updatePhysics
  rw [cameraStage_gameOver, boundsStage_gameOver, hostUpdate_gameOver,
    healStage_gameOver, cooldownStage_gameOver, moveStage_gameOver]

/-! ## Claim theorems -/

/-- C1: the claim says a tick with player health at or below 0 sets the
terminal flag, after which the scheduler stops.  The stopping half is
real (`gameLoop` returns without simulating once `gameOver` holds, third
conjunct), but no code in the repository ever assigns `gameOver = true`:
`updatePhysics` preserves the flag verbatim (first conjunct), so a tick
on a state whose player is already at 0 hp leaves the flag false and
keeps scheduling frames (second conjunct) — the YOU-DIED overlay, gated
on the flag, is unreachable. -/
theorem C1_gameOver_never_set :
    (∀ (ops : MathOps) (im ih : Bool) (inp : InputState) (r : ℚ) (s : GameState),
      (updatePhysics ops im ih inp r s).gameOver = s.gameOver) ∧
    (deadState.player.hp ≤ 0 ∧
      (gameLoopStep trivOps false false inp0 0 deadState).2 = true ∧
      (gameLoopStep trivOps false false inp0 0 deadState).1.gameOver = false) ∧
    (∀ (ops : MathOps) (im ih : Bool) (inp : InputState) (r : ℚ) (s : GameState),
      gameLoopStep ops im ih inp r { s with gameOver := true } =
        ({ s with gameOver := true }, false)) := by
  refine ⟨updatePhysics_gameOver, ⟨le_refl 0, ?_, ?_⟩, ?_⟩
  · simp [gameLoopStep, deadState]
  · simp only [gameLoopStep, deadState]
    rw [if_neg (by simp)]
    rw [updatePhysics_gameOver]
  · intro ops im ih inp r s
    simp [gameLoopStep]

/-- C3: world generation is deterministic in the seed.  In the embedding
the ambient randomness consumed during session initialisation (the
`Math.random()` stream feeding `spawnSnakes`) and the role flags are
explicit parameters, and the environment produced by `initWorld` is
independent of all of them: two sessions sharing a seed (and the `Math`
primitives) get list-identical environments — same order, positions,
radii and types. -/
theorem C3_generator_deterministic :
    ∀ (ops : MathOps) (seed : ℚ) (im1 ih1 : Bool) (rng1 : List Vec2)
      (im2 ih2 : Bool) (rng2 : List Vec2),
      (initGameState ops im1 ih1 seed rng1).environment =
        (initGameState ops im2 ih2 seed rng2).environment ∧
      (initGameState ops im1 ih1 seed rng1).environment = initWorld ops seed := by
  intro ops seed im1 ih1 rng1 im2 ih2 rng2
  exact ⟨rfl, rfl⟩

/-- C4: a `WORLD_UPDATE` received on a non-host peer wholesale-replaces
the enemy list with the payload; consequently no entity of the prior
mirror that is absent from the snapshot survives. -/
theorem C4_snapshot_replaces :
    ∀ (s : GameState) (es : List Entity),
      (applyData false s (NetMsg.worldUpdate es)).enemies = es ∧
      ∀ e ∈ s.enemies, e ∉ es → e ∉ (applyData false s (NetMsg.worldUpdate es)).enemies := by
  intro s es
  constructor
  · simp [applyData]
  · intro e _ hne
    simpa [applyData] using hne

theorem C4_snapshot_replaces_witness :
    (applyData false biteState (NetMsg.worldUpdate [snakeProto ⟨5, 5⟩ 7])).enemies =
      [snakeProto ⟨5, 5⟩ 7] ∧
    snakeProto ⟨1270, 1250⟩ 0 ∉
      (applyData false biteState (NetMsg.worldUpdate [snakeProto ⟨5, 5⟩ 7])).enemies := by
  refine ⟨(C4_snapshot_replaces biteState _).1,
    (C4_snapshot_replaces biteState _).2 (snakeProto ⟨1270, 1250⟩ 0) ?_ ?_⟩
  · simp [biteState]
  · simp [snakeProto, Entity.mk.injEq, Vec2.mk.injEq]

/-- C10: `gainXp` is a no-op once the level (with JS falsy default 1) is
at least 2; below the cap it adds the amount to the experience, and on
reaching the `maxXp` threshold it sets level 2, caps the experience at
`maxXp` and restores health to `maxHp`. -/
theorem C10_gainXp_spec :
    ∀ (p : Entity) (a : ℚ),
      (2 ≤ falsyOr p.level 1 → gainXp p a = p) ∧
      (falsyOr p.level 1 < 2 → falsyOr p.xp 0 + a < falsyOr p.maxXp 100 →
        gainXp p a = { p with xp := some (falsyOr p.xp 0 + a) }) ∧
      (falsyOr p.level 1 < 2 → falsyOr p.maxXp 100 ≤ falsyOr p.xp 0 + a →
        gainXp p a = { p with level := some 2, xp := p.maxXp, hp := p.maxHp }) := by
  intro p a
  refine ⟨?_, ?_, ?_⟩
  · intro h
    simp only [gainXp]
    rw [if_pos h]
  · intro h1 h2
    simp only [gainXp]
    rw [if_neg (not_le.mpr h1), if_neg (not_le.mpr h2)]
  · intro h1 h2
    simp only [gainXp]
    rw [if_neg (not_le.mpr h1), if_pos h2]

theorem C10_gainXp_spec_witness :
    gainXp { playerInit with level := some 2 } 7 = { playerInit with level := some 2 } ∧
    gainXp playerInit 40 = { playerInit with xp := some (falsyOr playerInit.xp 0 + 40) } ∧
    gainXp { playerInit with xp := some 90, hp := 50 } 10 =
      { playerInit with xp := some 100, hp := 100, level := some 2 } := by
  refine ⟨(C10_gainXp_spec { playerInit with level := some 2 } 7).1
      (by norm_num [falsyOr, playerInit]),
    ?_, ?_⟩
  · have h := (C10_gainXp_spec playerInit 40).2.1
      (by norm_num [falsyOr, playerInit]) (by norm_num [falsyOr, playerInit])
    exact h
  · have h := (C10_gainXp_spec { playerInit with xp := some 90, hp := 50 } 10).2.2
      (by norm_num [falsyOr, playerInit]) (by norm_num [falsyOr, playerInit])
    simpa [playerInit] using h

/-! ## Generator lemmas -/

theorem obstacleLoop_cursor (ops : MathOps) :
    ∀ (n i : ℕ) (c : ℚ), (obstacleLoop ops n i c).2 = c + 2 * n := by
  intro n
  induction n with
  | zero => intro i c; simp [obstacleLoop]
  | succ m ih =>
    intro i c
    unfold obstacleLoop
    dsimp only
    split
    · dsimp only
      rw [ih]
      push_cast
      ring
    · rw [ih]
      push_cast
      ring

theorem obstacleLoop_mem (ops : MathOps) :
    ∀ (n i : ℕ) (c : ℚ), ∀ e ∈ (obstacleLoop ops n i c).1,
      SPAWN_ZONE_RADIUS + 50 < dist ops e.pos SPAWN_ZONE_CENTER ∧
      (e.type = EntityType.TREE ∨ e.type = EntityType.ROCK) ∧
      (e.type = EntityType.ROCK → e.radius = 25 + (e.pos.y / CANVAS_HEIGHT) * 20) := by
  intro n
  induction n with
  | zero => intro i c e he; simp [obstacleLoop] at he
  | succ m ih =>
    intro i c e he
    unfold obstacleLoop at he
    dsimp only at he
    by_cases hg : dist ops ⟨seededRandom ops (c + 1) * CANVAS_WIDTH,
        seededRandom ops (c + 2) * CANVAS_HEIGHT⟩ SPAWN_ZONE_CENTER > SPAWN_ZONE_RADIUS + 50
    · rw [if_pos hg] at he
      rcases List.mem_cons.mp he with he1 | he2
      · subst he1
        unfold mkObstacle
        split
        · refine ⟨by simpa using hg, Or.inr rfl, fun _ => ?_⟩
          have h2500 : CANVAS_HEIGHT ≠ 0 := by norm_num [CANVAS_HEIGHT]
          dsimp only
          rw [mul_div_assoc, div_self h2500]
          ring
        · exact ⟨by simpa using hg, Or.inl rfl, fun h => by simp at h⟩
      · exact ih (i + 1) (c + 2) e he2
    · rw [if_neg hg] at he
      exact ih (i + 1) (c + 2) e he

theorem obstacleLoop_length (ops : MathOps) :
    ∀ (n i : ℕ) (c : ℚ), (obstacleLoop ops n i c).1.length ≤ n := by
  intro n
  induction n with
  | zero => intro i c; simp [obstacleLoop]
  | succ m ih =>
    intro i c
    unfold obstacleLoop
    dsimp only
    split
    · dsimp only [List.length_cons]
      exact Nat.succ_le_succ (ih (i + 1) (c + 2))
    · exact le_trans (ih (i + 1) (c + 2)) (Nat.le_succ m)

theorem obstaclesOf_initWorld (ops : MathOps) (seed : ℚ) :
    obstaclesOf (initWorld ops seed) = (obstacleLoop ops 250 0 seed).1 := by
  unfold obstaclesOf initWorld
  rw [List.filter_append]
  have h1 : ((List.range 30).map (streamEntity ops seed)).filter
      (fun e => decide (e.type = EntityType.TREE ∨ e.type = EntityType.ROCK)) = [] := by
    rw [List.filter_eq_nil_iff]
    intro e he
    rcases List.mem_map.mp he with ⟨j, _, hj⟩
    subst hj
    simp [streamEntity]
  have h2 : ((obstacleLoop ops 250 0 seed).1).filter
      (fun e => decide (e.type = EntityType.TREE ∨ e.type = EntityType.ROCK)) =
      (obstacleLoop ops 250 0 seed).1 := by
    rw [List.filter_eq_self]
    intro e he
    have := (obstacleLoop_mem ops 250 0 seed e he).2.1
    simpa using this
  rw [h1, h2, List.nil_append]

/-- C7: every generated obstacle lies strictly outside the sanctuary
circle enlarged by the margin (`dist > SPAWN_ZONE_RADIUS + 50 = 350`,
strict, with the distance computed by the engine's own `dist`), because
candidates inside it are skipped — not relocated — so at most the 250
loop iterations can place an obstacle. -/
theorem C7_obstacles_sanctuary :
    ∀ (ops : MathOps) (seed : ℚ),
      ((obstaclesOf (initWorld ops seed)).all
        (fun e => decide (SPAWN_ZONE_RADIUS + 50 < dist ops e.pos SPAWN_ZONE_CENTER))) = true ∧
      (obstaclesOf (initWorld ops seed)).length ≤ 250 := by
  intro ops seed
  rw [obstaclesOf_initWorld]
  constructor
  · rw [List.all_eq_true]
    intro e he
    exact decide_eq_true ((obstacleLoop_mem ops 250 0 seed e he).1)
  · exact obstacleLoop_length ops 250 0 seed

/-- C9 (corrected claim): per obstacle the pseudo-random cursor advances
by exactly two draws (the position pair) — never five — and the
remaining quantities are read at fixed offsets of the position cursor
without advancing it: rotation at `+5`, the Tree/Rock threshold at
`+10`, the rock radius at offset `0`, i.e. the very draw that fixed the
y coordinate, so a rock's radius is a function of its own y position
(`radius = 25 + (y / 2500) * 20`). -/
theorem C9_generator_draws_amended :
    (∀ (ops : MathOps) (n i : ℕ) (c : ℚ), (obstacleLoop ops n i c).2 = c + 2 * n) ∧
    (∀ (ops : MathOps) (n i : ℕ) (c : ℚ), ∀ e ∈ (obstacleLoop ops n i c).1,
      e.type = EntityType.ROCK → e.radius = 25 + (e.pos.y / CANVAS_HEIGHT) * 20) ∧
    (∀ (ops : MathOps) (i : ℕ) (c : ℚ) (pos : Vec2),
      (mkObstacle ops i c pos).rotation = seededRandom ops (c + 5) * ops.pi * 2 ∧
      (mkObstacle ops i c pos).pos = pos ∧
      (mkObstacle ops i c pos).type =
        (if 0.8 < seededRandom ops (c + 10) then EntityType.ROCK else EntityType.TREE)) := by
  refine ⟨obstacleLoop_cursor, ?_, ?_⟩
  · intro ops n i c e he
    exact (obstacleLoop_mem ops n i c e he).2.2
  · intro ops i c pos
    unfold mkObstacle
    split <;> simp_all

/-- C9 counterexample to the claim as stated: if the generator consumed
five sequential draws per entity the cursor after one iteration would
stand at `c + 5`; it stands at `c + 2`. -/
theorem C9_generator_draws_cex :
    (obstacleLoop trivOps 1 0 0).2 = 0 + 2 ∧ ¬((0 : ℚ) + 2 = 0 + 5) := by
  constructor
  · rw [obstacleLoop_cursor trivOps 1 0 0]
    norm_num
  · norm_num

theorem C9_generator_draws_amended_witness :
    wRock ∈ (obstacleLoop drawOps 1 0 0).1 ∧
    wRock.type = EntityType.ROCK ∧
    wRock.radius = 25 + (wRock.pos.y / CANVAS_HEIGHT) * 20 := by
  have hmem : wRock ∈ (obstacleLoop drawOps 1 0 0).1 := by
    unfold obstacleLoop wRock
    norm_num [seededRandom, drawOps, dist, SPAWN_ZONE_CENTER, SPAWN_ZONE_RADIUS,
      CANVAS_WIDTH, CANVAS_HEIGHT]
  have htype : wRock.type = EntityType.ROCK := by
    unfold wRock mkObstacle
    norm_num [seededRandom, drawOps]
  exact ⟨hmem, htype,
    C9_generator_draws_amended.2.1 drawOps 1 0 0 wRock hmem htype⟩

/-! ## Combat lemmas -/

theorem hitEnemy_hp_of_inCone (ops : MathOps) (p e : Entity) (dmg : ℚ)
    (h : inCone ops p e) : (hitEnemy ops p dmg e).hp = e.hp - dmg := by
  obtain ⟨h1, h2⟩ := h
  unfold hitEnemy hitEnemyK
  dsimp only
  rw [if_pos h1, if_pos h2]

/-- C6 (corrected claim): a Hostile exactly at the attack-range boundary
is excluded (strict `<`, first conjunct) and one exactly at the angular
half-width boundary is excluded (strict `<`, second conjunct); the angle
difference, built from two `atan2` results in `(-pi, pi]`, is normalized
by the two while-loops into the closed interval `[-pi, pi]` — not the
claimed `(-pi, pi]` — before the comparison (third conjunct). -/
theorem C6_melee_boundaries_amended :
    (∀ (ops : MathOps) (p e : Entity) (dmg : ℚ),
      ops.sqrt ((e.pos.x - p.pos.x) * (e.pos.x - p.pos.x) +
        (e.pos.y - p.pos.y) * (e.pos.y - p.pos.y)) = 150 →
      hitEnemy ops p dmg e = e) ∧
    (∀ (ops : MathOps) (p e : Entity) (dmg : ℚ),
      |normalizeAngle ops.pi
        (ops.atan2 (e.pos.y - p.pos.y) (e.pos.x - p.pos.x) - p.rotation)| = 1.5 →
      hitEnemy ops p dmg e = e) ∧
    (∀ (pi a r : ℚ), 0 < pi → -pi < a → a ≤ pi → -pi < r → r ≤ pi →
      -pi ≤ normalizeAngle pi (a - r) ∧ normalizeAngle pi (a - r) ≤ pi) := by
  refine ⟨?_, ?_, ?_⟩
  · intro ops p e dmg h
    unfold hitEnemy hitEnemyK
    dsimp only
    rw [h, if_neg (lt_irrefl (150 : ℚ))]
  · intro ops p e dmg h
    unfold hitEnemy hitEnemyK
    dsimp only
    split
    · rw [h, if_neg (lt_irrefl (1.5 : ℚ))]
    · rfl
  · intro pi a r hpi ha1 ha2 hr1 hr2
    unfold normalizeAngle
    dsimp only
    split_ifs with h1 h2 h3 <;> constructor <;> linarith

/-- C6 counterexample to the stated normalization range `(-pi, pi]`: for
the raw difference `0 - pi` (target direction angle 0, facing `pi`, both
legitimate `atan2` outputs) neither while-loop fires and the normalized
value is exactly `-pi`, which the claimed interval excludes.  `pi` is
instantiated at the rational 314159/100000; the computation never uses
its value beyond the two comparisons, which have the same outcome at the
real pi. -/
theorem C6_melee_boundaries_cex :
    normalizeAngle (314159 / 100000) (0 - 314159 / 100000) = -(314159 / 100000) ∧
    ¬(-(314159 / 100000) < normalizeAngle (314159 / 100000) (0 - 314159 / 100000)) := by
  constructor
  · norm_num [normalizeAngle]
  · norm_num [normalizeAngle]

theorem C6_melee_boundaries_amended_witness :
    hitEnemy ops150 playerInit 12 (snakeProto ⟨0, 0⟩ 0) = snakeProto ⟨0, 0⟩ 0 ∧
    hitEnemy opsCone playerInit 12 (snakeProto ⟨0, 0⟩ 0) = snakeProto ⟨0, 0⟩ 0 ∧
    (-(3 : ℚ) ≤ normalizeAngle 3 (1 - 0) ∧ normalizeAngle 3 (1 - 0) ≤ 3) := by
  refine ⟨C6_melee_boundaries_amended.1 ops150 playerInit (snakeProto ⟨0, 0⟩ 0) 12 ?_,
    C6_melee_boundaries_amended.2.1 opsCone playerInit (snakeProto ⟨0, 0⟩ 0) 12 ?_,
    C6_melee_boundaries_amended.2.2 3 1 0 (by norm_num) (by norm_num) (by norm_num)
      (by norm_num) (by norm_num)⟩
  · norm_num [ops150]
  · norm_num [opsCone, playerInit, normalizeAngle]

/-- C5: a Hostile strictly inside the range and cone takes the level
damage tier of `handleAttack`: at level 2 or above the tier is 60 and a
single hit takes a 60-health Hostile to 0; at level 1 the tier is 12, a
hit removes exactly 12 health, five hits reach 0 (`60 - 5*12 ≤ 0`) and
four do not (`0 < 60 - 4*12`); freshly spawned snakes carry exactly
60/60 health. -/
theorem C5_melee_damage_tiers :
    ∀ (ops : MathOps) (p e : Entity), inCone ops p e → e.hp = 60 →
      (2 ≤ falsyOr p.level 1 →
        attackDamage p.level = 60 ∧ (hitEnemy ops p (attackDamage p.level) e).hp ≤ 0) ∧
      (falsyOr p.level 1 = 1 →
        attackDamage p.level = 12 ∧
        (hitEnemy ops p (attackDamage p.level) e).hp = e.hp - 12 ∧
        e.hp - 5 * attackDamage p.level ≤ 0 ∧
        0 < e.hp - 4 * attackDamage p.level) ∧
      (∀ (pos : Vec2) (i : ℕ), (snakeProto pos i).hp = 60 ∧ (snakeProto pos i).maxHp = 60) := by
  intro ops p e hc h60
  refine ⟨?_, ?_, fun pos i => ⟨rfl, rfl⟩⟩
  · intro h2
    have hd : attackDamage p.level = 60 := by unfold attackDamage; rw [if_pos h2]
    refine ⟨hd, ?_⟩
    rw [hitEnemy_hp_of_inCone ops p e _ hc, h60, hd]
    norm_num
  · intro h1
    have hd : attackDamage p.level = 12 := by
      unfold attackDamage
      rw [if_neg]
      rw [h1]
      norm_num
    refine ⟨hd, ?_, ?_, ?_⟩
    · rw [hitEnemy_hp_of_inCone ops p e _ hc, hd]
    · rw [h60, hd]; norm_num
    · rw [h60, hd]; norm_num

theorem C5_melee_damage_tiers_witness :
    (hitEnemy opsHit { playerInit with level := some 2 }
      (attackDamage { playerInit with level := some 2 }.level) (snakeProto ⟨1250, 1250⟩ 1)).hp ≤ 0 ∧
    (hitEnemy opsHit playerInit (attackDamage playerInit.level) (snakeProto ⟨1250, 1250⟩ 1)).hp =
      (snakeProto ⟨1250, 1250⟩ 1).hp - 12 := by
  have hc1 : inCone opsHit { playerInit with level := some 2 } (snakeProto ⟨1250, 1250⟩ 1) := by
    norm_num [inCone, opsHit, normalizeAngle, playerInit, snakeProto]
  have hc2 : inCone opsHit playerInit (snakeProto ⟨1250, 1250⟩ 1) := by
    norm_num [inCone, opsHit, normalizeAngle, playerInit, snakeProto]
  have h1 := C5_melee_damage_tiers opsHit { playerInit with level := some 2 }
    (snakeProto ⟨1250, 1250⟩ 1) hc1 rfl
  have h2 := C5_melee_damage_tiers opsHit playerInit (snakeProto ⟨1250, 1250⟩ 1) hc2 rfl
  exact ⟨(h1.1 (by norm_num [falsyOr])).2, (h2.2.1 (by norm_num [falsyOr, playerInit])).2.1⟩

/-! ## Hostile AI theorems -/

/-- C8 counterexample to the claim as stated against the SNAKE-variant
AI (`updatePhysics` of GameEngine.tsx): a snake 100 units from the
sanctuary center — well inside the 350-unit proximity threshold — with
the player standing at the center is moved strictly CLOSER to the
center by its AI step (it pursues the target); radially outward motion
would strictly increase that distance.  The math ops agree with the real
functions at every argument used (`sqrt 10000 = 100`; the value 3 stands
for `atan2(0, -100) = pi`, with `cos 3 = -1`, `sin 3 = 0`). -/
theorem C8_hostile_sanctuary_cex :
    sqDist cexSnake.pos SPAWN_ZONE_CENTER < (SPAWN_ZONE_RADIUS + 50) ^ 2 ∧
    sqDist ((snakeTick cexOps SPAWN_ZONE_CENTER none cexSnake).1.pos) SPAWN_ZONE_CENTER <
      sqDist cexSnake.pos SPAWN_ZONE_CENTER := by
  constructor
  · norm_num [sqDist, cexSnake, snakeProto, SPAWN_ZONE_CENTER, SPAWN_ZONE_RADIUS]
  · norm_num [snakeTick, targetChoice, dist, cexOps, cexSnake, snakeProto, sqDist,
      SPAWN_ZONE_CENTER]

/-- C8 (corrected claim): in the earlier GameEngine variant — the code
the sanctuary behaviour of the spec comes from — a Hostile within the
sanctuary-proximity threshold moves radially outward: under the
hypotheses tying `cos`/`sin`/`atan2` to the true radial direction (unit
vector times the true center distance `r`), its squared distance from
the center grows from `r^2` to exactly `(r+2)^2` (first conjunct).  In
both variants a Hostile whose target distance is at least the aggro
range (800 for the SNAKE variant, 700 for the earlier one, the latter
additionally outside the sanctuary) neither moves nor turns nor damages
the target (second and third conjuncts); only its cooldown ticks down.
In the SNAKE variant the sanctuary check is absent entirely, so the
flee half of the claim holds only for the earlier variant (see the
counterexample). -/
theorem C8_hostile_sanctuary_amended :
    (∀ (ops : MathOps) (pp : Vec2) (e : Entity) (r : ℚ),
      0 < r →
      r ^ 2 = sqDist e.pos SPAWN_ZONE_CENTER →
      ops.cos (ops.atan2 (e.pos.y - SPAWN_ZONE_CENTER.y) (e.pos.x - SPAWN_ZONE_CENTER.x)) * r =
        e.pos.x - SPAWN_ZONE_CENTER.x →
      ops.sin (ops.atan2 (e.pos.y - SPAWN_ZONE_CENTER.y) (e.pos.x - SPAWN_ZONE_CENTER.x)) * r =
        e.pos.y - SPAWN_ZONE_CENTER.y →
      dist ops e.pos SPAWN_ZONE_CENTER < SPAWN_ZONE_RADIUS + 50 →
      sqDist ((enemyStepV1 ops pp e).1.pos) SPAWN_ZONE_CENTER = (r + 2) ^ 2 ∧
      sqDist e.pos SPAWN_ZONE_CENTER < (r + 2) ^ 2) ∧
    (∀ (ops : MathOps) (pp : Vec2) (fr : Option Entity) (snake : Entity),
      800 ≤ (targetChoice ops pp fr snake).2.1 →
      (snakeTick ops pp fr snake).1.pos = snake.pos ∧
      (snakeTick ops pp fr snake).1.rotation = snake.rotation ∧
      (snakeTick ops pp fr snake).2 = 0) ∧
    (∀ (ops : MathOps) (pp : Vec2) (e : Entity),
      SPAWN_ZONE_RADIUS + 50 ≤ dist ops e.pos SPAWN_ZONE_CENTER →
      700 ≤ dist ops e.pos pp →
      (enemyStepV1 ops pp e).1.pos = e.pos ∧
      (enemyStepV1 ops pp e).1.rotation = e.rotation ∧
      (enemyStepV1 ops pp e).2 = 0) := by
  refine ⟨?_, ?_, ?_⟩
  · intro ops pp e r hr hrr hx hy hflee
    simp only [sqDist] at hrr
    constructor
    · have hcs : (ops.cos (ops.atan2 (e.pos.y - SPAWN_ZONE_CENTER.y)
          (e.pos.x - SPAWN_ZONE_CENTER.x))) ^ 2 +
          (ops.sin (ops.atan2 (e.pos.y - SPAWN_ZONE_CENTER.y)
          (e.pos.x - SPAWN_ZONE_CENTER.x))) ^ 2 = 1 := by
        have h1 : (ops.cos (ops.atan2 (e.pos.y - SPAWN_ZONE_CENTER.y)
            (e.pos.x - SPAWN_ZONE_CENTER.x)) * r) ^ 2 +
            (ops.sin (ops.atan2 (e.pos.y - SPAWN_ZONE_CENTER.y)
            (e.pos.x - SPAWN_ZONE_CENTER.x)) * r) ^ 2 = r ^ 2 := by
          rw [hx, hy, hrr]
        have h2 : ((ops.cos (ops.atan2 (e.pos.y - SPAWN_ZONE_CENTER.y)
            (e.pos.x - SPAWN_ZONE_CENTER.x))) ^ 2 +
            (ops.sin (ops.atan2 (e.pos.y - SPAWN_ZONE_CENTER.y)
            (e.pos.x - SPAWN_ZONE_CENTER.x))) ^ 2) * r ^ 2 = 1 * r ^ 2 := by
          ring_nf
          ring_nf at h1
          linarith
        exact mul_right_cancel₀ (pow_ne_zero 2 hr.ne') h2
      unfold enemyStepV1
      dsimp only
      rw [if_pos hflee]
      split <;>
      · simp only [sqDist]
        linear_combination (-(1 : ℚ)) * hrr +
          (-(4 : ℚ) * ops.cos (ops.atan2 (e.pos.y - SPAWN_ZONE_CENTER.y)
            (e.pos.x - SPAWN_ZONE_CENTER.x))) * hx +
          (-(4 : ℚ) * ops.sin (ops.atan2 (e.pos.y - SPAWN_ZONE_CENTER.y)
            (e.pos.x - SPAWN_ZONE_CENTER.x))) * hy +
          (4 * r + 4) * hcs
    · simp only [sqDist]
      rw [← hrr]
      nlinarith
  · intro ops pp fr snake h800
    unfold snakeTick
    dsimp only
    rw [if_neg (not_lt.mpr h800)]
    refine ⟨by split <;> rfl, by split <;> rfl, rfl⟩
  · intro ops pp e hspawn haggro
    unfold enemyStepV1
    dsimp only
    rw [if_neg (not_lt.mpr hspawn), if_neg (not_lt.mpr haggro)]
    refine ⟨by split <;> rfl, by split <;> rfl, rfl⟩

theorem C8_hostile_sanctuary_amended_witness :
    (sqDist ((enemyStepV1 fleeOps ⟨0, 0⟩ cexSnake).1.pos) SPAWN_ZONE_CENTER = (100 + 2) ^ 2 ∧
      sqDist cexSnake.pos SPAWN_ZONE_CENTER < (100 + 2) ^ 2) ∧
    ((snakeTick farOps ⟨0, 0⟩ none cexSnake).1.pos = cexSnake.pos ∧
      (snakeTick farOps ⟨0, 0⟩ none cexSnake).1.rotation = cexSnake.rotation ∧
      (snakeTick farOps ⟨0, 0⟩ none cexSnake).2 = 0) ∧
    ((enemyStepV1 farOps ⟨0, 0⟩ cexSnake).1.pos = cexSnake.pos ∧
      (enemyStepV1 farOps ⟨0, 0⟩ cexSnake).1.rotation = cexSnake.rotation ∧
      (enemyStepV1 farOps ⟨0, 0⟩ cexSnake).2 = 0) := by
  refine ⟨C8_hostile_sanctuary_amended.1 fleeOps ⟨0, 0⟩ cexSnake 100 (by norm_num) ?_ ?_ ?_ ?_,
    C8_hostile_sanctuary_amended.2.1 farOps ⟨0, 0⟩ none cexSnake ?_,
    C8_hostile_sanctuary_amended.2.2 farOps ⟨0, 0⟩ cexSnake ?_ ?_⟩
  · norm_num [sqDist, cexSnake, snakeProto, SPAWN_ZONE_CENTER]
  · norm_num [fleeOps, cexSnake, snakeProto, SPAWN_ZONE_CENTER]
  · norm_num [fleeOps, cexSnake, snakeProto, SPAWN_ZONE_CENTER]
  · norm_num [fleeOps, dist, cexSnake, snakeProto, SPAWN_ZONE_CENTER, SPAWN_ZONE_RADIUS]
  · norm_num [targetChoice, farOps, dist, cexSnake, snakeProto]
  · norm_num [farOps, dist, cexSnake, snakeProto, SPAWN_ZONE_CENTER, SPAWN_ZONE_RADIUS]
  · norm_num [farOps, dist, cexSnake, snakeProto]

/-! ## Clamp and collision lemmas -/

theorem clampCoord_bounds (v : ℚ) : 0 ≤ clampCoord v ∧ clampCoord v ≤ CANVAS_WIDTH := by
  unfold clampCoord
  constructor
  · exact le_max_left 0 _
  · exact max_le (by norm_num [CANVAS_WIDTH]) (min_le_left _ _)

theorem pushFromRock_fields (ops : MathOps) (rock e : Entity) :
    (pushFromRock ops rock e).hp = e.hp ∧ (pushFromRock ops rock e).maxHp = e.maxHp ∧
    (pushFromRock ops rock e).radius = e.radius := by
  unfold pushFromRock
  dsimp only
  split <;> exact ⟨rfl, rfl, rfl⟩

theorem foldl_push_fields (ops : MathOps) :
    ∀ (l : List Entity) (e : Entity),
      (l.foldl (fun x rr => pushFromRock ops rr x) e).hp = e.hp ∧
      (l.foldl (fun x rr => pushFromRock ops rr x) e).maxHp = e.maxHp := by
  intro l
  induction l with
  | nil => intro e; exact ⟨rfl, rfl⟩
  | cons r rs ih =>
    intro e
    have h1 := pushFromRock_fields ops r e
    have h2 := ih (pushFromRock ops r e)
    simp only [List.foldl_cons]
    exact ⟨h2.1.trans h1.1, h2.2.trans h1.2.1⟩

theorem foldl_push_of_no_overlap (ops : MathOps) :
    ∀ (l : List Entity) (e : Entity),
      (∀ r ∈ l, e.radius + r.radius ≤ dist ops e.pos r.pos) →
      l.foldl (fun x rr => pushFromRock ops rr x) e = e := by
  intro l
  induction l with
  | nil => intro e _; rfl
  | cons r rs ih =>
    intro e h
    have h1 : pushFromRock ops r e = e := by
      unfold pushFromRock
      dsimp only
      rw [if_neg (not_lt.mpr (h r (List.mem_cons_self r rs)))]
    simp only [List.foldl_cons, h1]
    exact ih e (fun rr hrr => h rr (List.mem_cons_of_mem r hrr))

theorem resolveEntity_hp (ops : MathOps) (env : List Entity) (e : Entity) :
    (resolveEntity ops env e).hp = e.hp ∧ (resolveEntity ops env e).maxHp = e.maxHp := by
  unfold resolveEntity
  exact foldl_push_fields ops (rocksOf env) _

/-! ## Health-bound preservation lemmas -/

theorem healthsOk_of (s t : GameState) (hph : t.player.hp = s.player.hp)
    (hpm : t.player.maxHp = s.player.maxHp) (hf : t.friend = s.friend)
    (he : t.enemies = s.enemies) (h : healthsOk s) : healthsOk t := by
  intro e hmem
  unfold dynEntities at hmem
  rcases List.mem_cons.mp hmem with h1 | h2
  · subst h1
    rw [hph, hpm]
    exact h s.player (List.mem_cons_self _ _)
  · rw [hf, he] at h2
    exact h e (List.mem_cons_of_mem _ h2)

theorem moveStage_fields (ops : MathOps) (inp : InputState) (s : GameState) :
    (moveStage ops inp s).player.hp = s.player.hp ∧
    (moveStage ops inp s).player.maxHp = s.player.maxHp ∧
    (moveStage ops inp s).friend = s.friend ∧
    (moveStage ops inp s).enemies = s.enemies := by
  unfold moveStage
  split <;> exact ⟨rfl, rfl, rfl, rfl⟩

theorem cooldownStage_fields (s : GameState) :
    (cooldownStage s).player.hp = s.player.hp ∧
    (cooldownStage s).player.maxHp = s.player.maxHp ∧
    (cooldownStage s).friend = s.friend ∧
    (cooldownStage s).enemies = s.enemies := by
  unfold cooldownStage
  split <;> exact ⟨rfl, rfl, rfl, rfl⟩

theorem healthsOk_healStage (ops : MathOps) (r : ℚ) (s : GameState)
    (h : healthsOk s) : healthsOk (healStage ops r s) := by
  unfold healStage
  dsimp only
  split
  · intro e hmem
    unfold dynEntities at hmem
    rcases List.mem_cons.mp hmem with h1 | h2
    · subst h1
      exact min_le_left _ _
    · exact h e (List.mem_cons_of_mem _ h2)
  · exact h

theorem snakeTick_hp (ops : MathOps) (pp : Vec2) (fr : Option Entity) (sn : Entity) :
    ((snakeTick ops pp fr sn).1).hp = sn.hp ∧ ((snakeTick ops pp fr sn).1).maxHp = sn.maxHp := by
  unfold snakeTick
  dsimp only
  split_ifs <;> exact ⟨rfl, rfl⟩

theorem snakeTick_dmg_nonneg (ops : MathOps) (pp : Vec2) (fr : Option Entity) (sn : Entity) :
    0 ≤ (snakeTick ops pp fr sn).2 := by
  unfold snakeTick
  dsimp only
  split_ifs <;> norm_num

theorem healthsOk_hostStage (ops : MathOps) (s : GameState)
    (h : healthsOk s) : healthsOk (hostStage ops s) := by
  have hd : 0 ≤ ((s.enemies.map (snakeTick ops s.player.pos s.friend)).map Prod.snd).sum := by
    apply List.sum_nonneg
    intro x hx
    rcases List.mem_map.mp hx with ⟨pr, hpr, hxeq⟩
    rcases List.mem_map.mp hpr with ⟨sn, _, hpreq⟩
    subst hxeq
    subst hpreq
    exact snakeTick_dmg_nonneg ops s.player.pos s.friend sn
  intro e hmem
  unfold hostStage at hmem
  dsimp only at hmem
  unfold dynEntities at hmem
  rcases List.mem_cons.mp hmem with h1 | h2
  · subst h1
    dsimp only
    have hp0 : s.player.hp ≤ s.player.maxHp := h s.player (List.mem_cons_self _ _)
    linarith
  · rcases List.mem_append.mp h2 with hf | hen
    · exact h e (List.mem_cons_of_mem _ (List.mem_append_left _ hf))
    · have hmem2 := List.mem_of_mem_filter hen
      rcases List.mem_map.mp hmem2 with ⟨pr, hpr, heq⟩
      rcases List.mem_map.mp hpr with ⟨sn, hsn, hpreq⟩
      subst heq
      subst hpreq
      have hf2 := snakeTick_hp ops s.player.pos s.friend sn
      rw [hf2.1, hf2.2]
      exact h sn (List.mem_cons_of_mem _ (List.mem_append_right _ hsn))

theorem healthsOk_hostUpdate (im ih : Bool) (ops : MathOps) (s : GameState)
    (h : healthsOk s) : healthsOk (hostUpdate im ih ops s) := by
  unfold hostUpdate
  split
  · exact healthsOk_hostStage ops s h
  · exact h

theorem healthsOk_boundsStage (ops : MathOps) (s : GameState)
    (h : healthsOk s) : healthsOk (boundsStage ops s) := by
  intro e hmem
  unfold boundsStage at hmem
  unfold dynEntities at hmem
  dsimp only at hmem
  rcases List.mem_cons.mp hmem with h1 | h2
  · subst h1
    have hf2 := resolveEntity_hp ops s.environment s.player
    rw [hf2.1, hf2.2]
    exact h s.player (List.mem_cons_self _ _)
  · rcases List.mem_append.mp h2 with hf | hen
    · cases hfr : s.friend with
      | none =>
        rw [hfr] at hf
        exact absurd hf (by simp)
      | some fr =>
        rw [hfr] at hf
        simp only [Option.map_some', Option.toList_some, List.mem_singleton] at hf
        subst hf
        have hf2 := resolveEntity_hp ops s.environment fr
        rw [hf2.1, hf2.2]
        have hfr2 : fr ∈ dynEntities s := by
          unfold dynEntities
          rw [hfr]
          exact List.mem_cons_of_mem _ (List.mem_append_left _ (by simp))
        exact h fr hfr2
    · rcases List.mem_map.mp hen with ⟨sn, hsn, heq⟩
      subst heq
      have hf2 := resolveEntity_hp ops s.environment sn
      rw [hf2.1, hf2.2]
      exact h sn (List.mem_cons_of_mem _ (List.mem_append_right _ hsn))

theorem healthsOk_cameraStage (s : GameState) (h : healthsOk s) :
    healthsOk (cameraStage s) :=
  healthsOk_of s (cameraStage s) rfl rfl rfl rfl h

/-! ## Environment preservation -/

theorem moveStage_environment (ops : MathOps) (inp : InputState) (s : GameState) :
    (moveStage ops inp s).environment = s.environment := by
  unfold moveStage; split <;> rfl

theorem cooldownStage_environment (s : GameState) :
    (cooldownStage s).environment = s.environment := by
  unfold cooldownStage; split <;> rfl

theorem healStage_environment (ops : MathOps) (r : ℚ) (s : GameState) :
    (healStage ops r s).environment = s.environment := by
  unfold healStage; dsimp only; split <;> rfl

theorem hostUpdate_environment (im ih : Bool) (ops : MathOps) (s : GameState) :
    (hostUpdate im ih ops s).environment = s.environment := by
  unfold hostUpdate; split <;> rfl

theorem updatePhysics_environment (ops : MathOps) (im ih : Bool) (inp : InputState)
    (r : ℚ) (s : GameState) :
    (updatePhysics ops im ih inp r s).environment = s.environment := by
  unfold updatePhysics
  show (hostUpdate im ih ops (healStage ops r (cooldownStage (moveStage ops inp s)))).environment
    = s.environment
  rw [hostUpdate_environment, healStage_environment, cooldownStage_environment,
    moveStage_environment]

/-! ## C2 theorems -/

set_option maxHeartbeats 2000000 in
/-- C2 counterexample to the claim as stated: (1) with the player at 5 hp
and a snake 20 units away off cooldown, one tick leaves the player at -5
hp — bite damage is subtracted without a lower clamp, violating
"health lies within [0, maximum]"; (2) with the player on the left world
edge overlapping a rock, the rock push-out — applied after the bounds
clamp — moves it to x = -20, violating "position lies within
[0, 2500] x [0, 2500]".  The math ops agree with the true functions at
every argument used (`sqrt 400 = 20`, `sqrt 900 = 30`; 3 stands for
`atan2(0, negative) = pi` with `cos 3 = -1`, `sin 3 = 0`). -/
theorem C2_tick_invariants_cex :
    (updatePhysics cexOps false false inp0 0 biteState).player.hp < 0 ∧
    (updatePhysics cexOps false false inp0 0 rockState).player.pos.x < 0 := by
  constructor <;>
    norm_num [updatePhysics, cameraStage, boundsStage, hostUpdate, hostStage,
      healStage, cooldownStage, moveStage, snakeTick, targetChoice, dist, resolveEntity,
      rocksOf, pushFromRock, clampPos, clampCoord, biteState, rockState, cexOps, inp0,
      mkPlayer, playerInit, snakeProto, edgeRock, lerp, CANVAS_WIDTH, CANVAS_HEIGHT]

/-- C2 (corrected claim): after any tick (1) a dynamic entity whose
clamped position overlaps no rock ends inside the world rectangle — the
clamp itself always lands inside, and the push-outs, which run after the
clamp and can exit the rectangle, fire only on overlap; (2) from a state
in which every dynamic entity's health is at most its maximum this upper
bound is preserved (healing is capped at `maxHp`, bites only subtract),
but there is no lower clamp at 0 (see the counterexample); (3) the
environment list is untouched by the tick. -/
theorem C2_tick_invariants_amended :
    (∀ (ops : MathOps) (env : List Entity) (e : Entity),
      (∀ r ∈ rocksOf env, e.radius + r.radius ≤ dist ops (clampPos e.pos) r.pos) →
      inBounds (resolveEntity ops env e).pos) ∧
    (∀ (ops : MathOps) (im ih : Bool) (inp : InputState) (hr : ℚ) (s : GameState),
      healthsOk s → healthsOk (updatePhysics ops im ih inp hr s)) ∧
    (∀ (ops : MathOps) (im ih : Bool) (inp : InputState) (hr : ℚ) (s : GameState),
      (updatePhysics ops im ih inp hr s).environment = s.environment) := by
  refine ⟨?_, ?_, updatePhysics_environment⟩
  · intro ops env e h
    unfold resolveEntity
    rw [foldl_push_of_no_overlap ops (rocksOf env)
      ({ e with pos := clampPos e.pos } : Entity) h]
    exact ⟨(clampCoord_bounds e.pos.x).1, (clampCoord_bounds e.pos.x).2,
      (clampCoord_bounds e.pos.y).1, (clampCoord_bounds e.pos.y).2⟩
  · intro ops im ih inp hr s h
    unfold updatePhysics
    apply healthsOk_cameraStage
    apply healthsOk_boundsStage
    apply healthsOk_hostUpdate
    apply healthsOk_healStage
    have h1 := moveStage_fields ops inp s
    have h2 := cooldownStage_fields (moveStage ops inp s)
    exact healthsOk_of s _ (h2.1.trans h1.1) (h2.2.1.trans h1.2.1)
      (h2.2.2.1.trans h1.2.2.1) (h2.2.2.2.trans h1.2.2.2) h

theorem C2_tick_invariants_amended_witness :
    inBounds (resolveEntity trivOps [] (mkPlayer ⟨100, 100⟩ 100)).pos ∧
    healthsOk (updatePhysics trivOps false false inp0 0 wState) := by
  refine ⟨C2_tick_invariants_amended.1 trivOps [] (mkPlayer ⟨100, 100⟩ 100) ?_,
    C2_tick_invariants_amended.2.1 trivOps false false inp0 0 wState ?_⟩
  · intro r hrm
    simp [rocksOf] at hrm
  · intro e hmem
    unfold dynEntities wState at hmem
    simp only [Option.toList_none, List.nil_append, List.mem_cons] at hmem
    rcases hmem with h1 | h2 | h3
    · subst h1; norm_num [mkPlayer, playerInit]
    · subst h2; norm_num [snakeProto]
    · exact absurd h3 (List.not_mem_nil e)

end WolfSim
